import Mathlib

/-!
Verification development for the broadcast-listing scrape-and-aggregate
pipeline (files vrt.py, api.py, scraper.py).

The pipeline is shallowly embedded:
* HTML structural queries (BeautifulSoup) are the extraction boundary: a
  listing "table" block is modelled by the values those queries return
  (`TableBlock`), and a detail-page fetch is an oracle returning either the
  extracted `EventData` or an exception.
* The regular-expression searches used by the code are modelled by
  hand-rolled scanners over `List Char` with Python semantics (leftmost
  match; the character classes of each pattern are pairwise disjoint with
  their successors, so maximal munch coincides with backtracking).
* `datetime.strptime(..., '%d %B at %H:%M')` is modelled field by field,
  including the default year 1900 used for day-of-month validation.
* Thread-pool completion order is an explicit `order : List Nat` parameter
  (the order in which `as_completed` yields futures).
* Python exceptions are `Except PyExn`; a bare `try/except` around a block
  is a `match`/`Option` absorbing the error.
-/

/-- Python exception payload (message only; the code never inspects it). -/
abbrev PyExn := String

/-! ## Character classes (ASCII fragments of Python's re classes) -/

/-- Python regex `\d` on the ASCII range. -/
def isPyDigit (c : Char) : Bool := ('0' ≤ c && c ≤ '9')

/-- Python regex `[A-Za-z]`. -/
def isAsciiLetter (c : Char) : Bool :=
  (('A' ≤ c && c ≤ 'Z') || ('a' ≤ c && c ≤ 'z'))

/-- Python regex `\s` on the ASCII range: space, tab, LF, CR, VT, FF. -/
def isPySpace (c : Char) : Bool :=
  (c = ' ' || c = '\t' || c = '\n' || c = '\x0d' || c = '\x0b' || c = '\x0c')

/-- Python regex word character `\w` (ASCII): letter, digit or underscore. -/
def isWordChar (c : Char) : Bool :=
  (isAsciiLetter c || isPyDigit c || c = '_')

/-- ASCII lower-casing, as applied by case-insensitive month matching. -/
def lowerChar (c : Char) : Char :=
  if ('A' ≤ c && c ≤ 'Z') then Char.ofNat (c.toNat + 32) else c

/-- Numeric value of a decimal digit character. -/
def digitVal (c : Char) : Nat := c.toNat - 48

/-- Value of a run of decimal digit characters (most significant first). -/
def digitsVal (l : List Char) : Nat := l.foldl (fun a c => a * 10 + digitVal c) 0

/-- One decimal digit as a character. -/
def digitChar (n : Nat) : Char :=
  match n with
  | 0 => '0' | 1 => '1' | 2 => '2' | 3 => '3' | 4 => '4'
  | 5 => '5' | 6 => '6' | 7 => '7' | 8 => '8' | _ => '9'

/-- Decimal digits of a natural number, as Python `str(n)` renders it
(no sign, no leading zeros, `0` for zero). Fuel-based helper. -/
def natDigitsAux : Nat → Nat → List Char
  | 0, _ => []
  | fuel + 1, n =>
    if n < 10 then [digitChar n]
    else natDigitsAux fuel (n / 10) ++ [digitChar (n % 10)]

/-- Decimal digits of a natural number, as Python `str(n)` renders it. -/
def natDigits (n : Nat) : List Char := natDigitsAux (n + 1) n

/-- Consume a literal prefix; return the rest of the input on success. -/
def matchLit : List Char → List Char → Option (List Char)
  | [], rest => some rest
  | _ :: _, [] => none
  | l :: ls, c :: cs => if c = l then matchLit ls cs else none

/-! ## The three regular expressions used by the scraper -/

/-- Anchored attempt of the pattern
`(\d+)\s+([A-Za-z]+)\s+at\s+(\d+:\d+)` (vrt.py line 51) at the head of the
input. Returns the captured day digits, month word, hour digits and minute
digits. The character classes of consecutive pattern pieces are disjoint,
so greedy maximal munch agrees with Python's backtracking semantics. -/
def monthTryAt (s : List Char) : Option (List Char × List Char × List Char × List Char) :=
  let d1 := s.takeWhile isPyDigit
  if d1.isEmpty then none else
  let r1 := s.dropWhile isPyDigit
  if (r1.takeWhile isPySpace).isEmpty then none else
  let r2 := r1.dropWhile isPySpace
  let al := r2.takeWhile isAsciiLetter
  if al.isEmpty then none else
  let r3 := r2.dropWhile isAsciiLetter
  if (r3.takeWhile isPySpace).isEmpty then none else
  let r4 := r3.dropWhile isPySpace
  match matchLit ['a', 't'] r4 with
  | none => none
  | some r5 =>
    if (r5.takeWhile isPySpace).isEmpty then none else
    let r6 := r5.dropWhile isPySpace
    let d2 := r6.takeWhile isPyDigit
    if d2.isEmpty then none else
    let r7 := r6.dropWhile isPyDigit
    match r7 with
    | ':' :: r8 =>
      let d3 := r8.takeWhile isPyDigit
      if d3.isEmpty then none else some (d1, al, d2, d3)
    | _ => none

/-- `re.search` of the date pattern: try every start position, leftmost
match wins (vrt.py line 52). -/
def searchMonth : List Char → Option (List Char × List Char × List Char × List Char)
  | [] => none
  | c :: rest =>
    match monthTryAt (c :: rest) with
    | some r => some r
    | none => searchMonth rest

/-- Anchored attempt of the day-filter pattern `<digits>\s+[A-Za-z]+`
(after the word boundary has already been checked). -/
def dayTryAt (dayDigits : List Char) (s : List Char) : Bool :=
  match matchLit dayDigits s with
  | none => false
  | some r =>
    if (r.takeWhile isPySpace).isEmpty then false
    else !((r.dropWhile isPySpace).takeWhile isAsciiLetter).isEmpty

/-- `re.search` of `\b<day>\s+[A-Za-z]+` (vrt.py line 82): scan every
position, `prevWord` tracks whether the previous character is a word
character (no boundary there if so). -/
def daySearchAux (dayDigits : List Char) : Bool → List Char → Bool
  | _, [] => false
  | prevWord, c :: rest =>
    if !prevWord && dayTryAt dayDigits (c :: rest) then true
    else daySearchAux dayDigits (isWordChar c) rest

/-- Does the text contain today's day number at a word boundary, followed
by whitespace and at least one letter? Models
`re.search(rf'\b<today_day>\s+[A-Za-z]+', text)`. -/
def daySearch (dayDigits : List Char) (s : List Char) : Bool :=
  daySearchAux dayDigits false s

/-- Anchored attempt of `/eventinfo/(\d+)`: the literal followed by at
least one digit; the capture is the maximal digit run. -/
def eventInfoTryAt (s : List Char) : Option (List Char) :=
  match matchLit ['/', 'e', 'v', 'e', 'n', 't', 'i', 'n', 'f', 'o', '/'] s with
  | none => none
  | some r =>
    let ds := r.takeWhile isPyDigit
    if ds.isEmpty then none else some ds

/-- `re.search(r'/eventinfo/(\d+)', href)` (vrt.py line 39): leftmost
occurrence of the literal that is followed by a digit. -/
def searchEventInfo : List Char → Option (List Char)
  | [] => none
  | c :: rest =>
    match eventInfoTryAt (c :: rest) with
    | some r => some r
    | none => searchEventInfo rest

/-- String-level wrapper for the event-id extraction. -/
def searchEventInfoS (href : String) : Option String :=
  (searchEventInfo href.data).map String.mk

/-! ## Python string helpers used by the parser -/

/-- Python `str.strip()` (whitespace strip on both ends). -/
def pyStrip (l : List Char) : List Char :=
  ((l.dropWhile isPySpace).reverse.dropWhile isPySpace).reverse

/-- Split a character list at newline characters, keeping empty pieces
(Python `str.split` with an explicit separator keeps them). -/
def splitNewlines : List Char → List (List Char)
  | [] => [[]]
  | c :: rest =>
    let parts := splitNewlines rest
    if c = '\n' then [] :: parts
    else
      match parts with
      | [] => [[c]]
      | p :: ps => (c :: p) :: ps

/-- Python `str.strip('()')`: remove leading and trailing parentheses. -/
def stripParens (l : List Char) : List Char :=
  let isParen : Char → Bool := fun c => (c = '(' || c = ')')
  ((l.dropWhile isParen).reverse.dropWhile isParen).reverse

/-- The stripped, non-empty lines of an `evdesc` text block:
`[p.strip() for p in text.split('\n') if p.strip()]` (vrt.py line 44). -/
def descLines (text : List Char) : List (List Char) :=
  ((splitNewlines text).map pyStrip).filter (fun p => !p.isEmpty)

/-- `urllib.parse.urljoin(base, url)` on the shapes occurring here: an
already-absolute URL is kept, otherwise it is resolved against the base.
No claim depends on the joined value, only on its presence. -/
def urljoinM (base url : String) : String :=
  if (url.data.takeWhile (fun c => c ≠ ':')).length + 2 < url.data.length &&
      (matchLit [':', '/', '/'] (url.data.dropWhile (fun c => c ≠ ':'))).isSome
  then url else base ++ url

/-! ## datetime.strptime model -/

/-- Calendar date of "now" (`datetime.now()` restricted to what the code
reads: year, month, day). -/
structure Date where
  year : Nat
  month : Nat
  day : Nat
deriving DecidableEq, Repr

/-- A normalized timestamp (the `parsed_datetime` value). -/
structure DateTimeV where
  year : Nat
  month : Nat
  day : Nat
  hour : Nat
  minute : Nat
deriving DecidableEq, Repr

/-- Lowercase full English month names, in order. -/
def monthNames : List (List Char) :=
  [['j','a','n','u','a','r','y'], ['f','e','b','r','u','a','r','y'],
   ['m','a','r','c','h'], ['a','p','r','i','l'], ['m','a','y'],
   ['j','u','n','e'], ['j','u','l','y'], ['a','u','g','u','s','t'],
   ['s','e','p','t','e','m','b','e','r'], ['o','c','t','o','b','e','r'],
   ['n','o','v','e','m','b','e','r'], ['d','e','c','e','m','b','e','r']]

/-- 1-based index of a month word if it is exactly a full month name
(case-insensitive), as `%B` requires. -/
def monthIndex (w : List Char) : Option Nat :=
  let lw := w.map lowerChar
  (monthNames.indexOf? lw).map (· + 1)

/-- Days in each month of year 1900 (strptime's default year, not a leap
year — so February has 28 days even when the current year is a leap
year). -/
def daysInMonth1900 (m : Nat) : Nat :=
  match m with
  | 1 => 31 | 2 => 28 | 3 => 31 | 4 => 30 | 5 => 31 | 6 => 30
  | 7 => 31 | 8 => 31 | 9 => 30 | 10 => 31 | 11 => 30 | _ => 31

/-- `datetime.strptime(f"<d> <mon> at <h>:<m>", '%d %B at %H:%M')` on the
captured groups: `%d` takes a 1-2 digit day 1..31, `%B` a full month name,
`%H` a 1-2 digit hour 0..23, `%M` a 1-2 digit minute 0..59, and the
constructed date must exist in the default year 1900. Returns
(month, day, hour, minute) or raises (modelled as `none`). -/
def pyStrptimeDBHM (d mon hh mm : List Char) : Option (Nat × Nat × Nat × Nat) :=
  match monthIndex mon with
  | none => none
  | some mo =>
    let dn := digitsVal d
    let hn := digitsVal hh
    let mn := digitsVal mm
    if d.length ≤ 2 ∧ 1 ≤ dn ∧ dn ≤ 31 ∧ hh.length ≤ 2 ∧ hn ≤ 23 ∧
        mm.length ≤ 2 ∧ mn ≤ 59 ∧ dn ≤ daysInMonth1900 mo
    then some (mo, dn, hn, mn) else none

/-- The date-parsing step of `_parse_broadcast_item` (vrt.py lines 50-58):
search the date pattern in the display text; on a match run strptime and
replace the year with the current year; any strptime failure is caught and
leaves the timestamp absent. -/
def parseFixtureDT (year : Nat) (s : List Char) : Option DateTimeV :=
  match searchMonth s with
  | none => none
  | some (d, mon, hh, mm) =>
    (pyStrptimeDBHM d mon hh mm).map
      (fun r => { year := year, month := r.1, day := r.2.1,
                  hour := r.2.2.1, minute := r.2.2.2 })

/-! ## Data model of the scraped records -/

/-- The primary link tag of a listing block (`a.live` or `a.bottomgray`):
its stripped text and its `href` attribute. -/
structure LinkTag where
  text : String
  href : Option String
deriving DecidableEq, Repr

/-- What `_parse_broadcast_item` queries out of one listing table block —
the BeautifulSoup extraction boundary. -/
structure TableBlock where
  /-- First `a.live`, else first `a.bottomgray`, if any. -/
  linkTag : Option LinkTag
  /-- `span.evdesc` text content with newline separators, if the span exists. -/
  evdesc : Option String
  /-- `alt` attribute of the first image carrying one. -/
  imgAlt : Option String
  /-- Whether an image whose `src` contains `live.gif` is present. -/
  hasLiveGif : Bool
deriving DecidableEq, Repr

/-- One team-logo entry extracted from a detail page. -/
structure TeamLogo where
  teamName : String
  logoUrl : String
deriving DecidableEq, Repr

/-- One stream descriptor extracted from a detail page (payload only; no
claim inspects the individual fields). -/
structure StreamData where
  language : String
  bitrate : String
  streamUrl : String
  streamType : String
deriving DecidableEq, Repr

/-- The value built by `get_event_details_concurrent` on success: both
keys are always present (vrt.py line 116). -/
structure EventData where
  teamLogos : List TeamLogo
  streams : List StreamData
deriving DecidableEq, Repr

/-- A fixture record. Optional fields model Python dict keys that may be
absent; `parsedDatetime = none` covers both the never-set key and the
explicit `None` written by the except branch (every consumer reads the
key with `dict.get`, which does not distinguish them). -/
structure Fixture where
  matchup : String
  eventUrl : Option String
  eventId : Option String
  dateTime : Option String
  competition : Option String
  parsedDatetime : Option DateTimeV
  logoAlt : Option String
  isLive : Bool
  teamLogos : Option (List TeamLogo)
  streams : Option (List StreamData)
deriving DecidableEq, Repr

/-- The Event view of team imagery: the `team_logos` entry when present,
else empty — the defaulted dict read every consumer uses
(api.py line 75: `fixture.get('team_logos', [])`). -/
def teamImages (f : Fixture) : List TeamLogo := f.teamLogos.getD []

/-- The Event view of the stream list: the `streams` entry when present,
else empty (defaulted dict read, api.py line 535). -/
def streamsOf (f : Fixture) : List StreamData := f.streams.getD []

/-! ## vrt.py — the production pipeline -/

/-- `self.base_url` of the production scraper. -/
def baseUrl : String := "https://livetv.sx"

/-- The `event_url`/`event_id` assignment of `_parse_broadcast_item`
(vrt.py lines 36-40): both are set only when the href is truthy, and the
id only when the URL contains an `/eventinfo/<digits>` segment. -/
def eventUrlIdOf (base : String) (lk : LinkTag) : Option String × Option String :=
  match lk.href with
  | none => (none, none)
  | some h =>
    if h = "" then (none, none)
    else (some (urljoinM base h), searchEventInfoS h)

/-- The `date_time`/`competition`/`parsed_datetime` assignment of
`_parse_broadcast_item` (vrt.py lines 42-58). -/
def descFieldsOf (year : Nat) (evdesc : Option String) :
    Option String × Option String × Option DateTimeV :=
  match evdesc with
  | none => (none, none, none)
  | some txt =>
    match descLines txt.data with
    | [] => (none, none, none)
    | d0 :: restParts =>
      let comp :=
        match restParts with
        | c1 :: _ => some (String.mk (stripParens c1))
        | [] => none
      (some (String.mk d0), comp, parseFixtureDT year d0)

/-- The fixture built from a block whose primary link was found. -/
def buildFixture (base : String) (now : Date) (tb : TableBlock) (lk : LinkTag) : Fixture :=
  let ui := eventUrlIdOf base lk
  let dc := descFieldsOf now.year tb.evdesc
  { matchup := lk.text
    eventUrl := ui.1
    eventId := ui.2
    dateTime := dc.1
    competition := dc.2.1
    parsedDatetime := dc.2.2
    logoAlt := tb.imgAlt
    isLive := tb.hasLiveGif
    teamLogos := none
    streams := none }

/-- `BroadcastScraper._parse_broadcast_item` (vrt.py lines 29-68): `None`
when no primary link tag exists, otherwise the fixture record. -/
def parseBroadcastItem (base : String) (now : Date) (tb : TableBlock) : Option Fixture :=
  match tb.linkTag with
  | none => none
  | some lk => some (buildFixture base now tb lk)

/-- The per-fixture condition of the listing loop (vrt.py lines 80-82):
the record has a truthy `date_time` whose text contains today's day number
at a word boundary followed by whitespace and a letter. -/
def vrtKeep (now : Date) (f : Fixture) : Bool :=
  match f.dateTime with
  | none => false
  | some s => if s = "" then false else daySearch (natDigits now.day) s.data

/-- `BroadcastScraper.get_fixtures_for_sport` (vrt.py lines 70-87): on a
listing-fetch error the bare except returns two empty lists; otherwise
every block is parsed and kept when `vrtKeep` holds. The fetch plus parse
is the `listing` oracle value. -/
def vrtGetFixtures (base : String) (now : Date)
    (listing : Except PyExn (List TableBlock)) : List Fixture × List Fixture :=
  match listing with
  | Except.error _ => ([], [])
  | Except.ok tables =>
    ([], ((tables.filterMap (parseBroadcastItem base now)).filter (vrtKeep now)))

/-- `get_event_details_concurrent` (vrt.py lines 112-135): the fetch and
extraction are the oracle; its bare except turns any exception into
`None`. -/
def getEventDetailsConcurrent (details : String → Except PyExn EventData)
    (u : String) : Option EventData :=
  (details u).toOption

/-- `process_fixture_concurrent` (vrt.py lines 137-144): when the fixture
has a truthy `event_url` and the detail fetch succeeds, `team_logos` and
`streams` are written; otherwise the fixture is returned unchanged. -/
def processFixtureConcurrent (details : String → Except PyExn EventData)
    (f : Fixture) : Fixture :=
  match f.eventUrl with
  | none => f
  | some u =>
    if u = "" then f
    else
      match getEventDetailsConcurrent details u with
      | none => f
      | some d => { f with teamLogos := some d.teamLogos, streams := some d.streams }

/-- `process_all_fixtures_concurrent` (vrt.py lines 146-156): results are
appended in the order `as_completed` yields them — the completion order
`order` (a permutation of the indices when every submitted future
completes, which it does since the worker body absorbs all errors). -/
def processAllFixturesConcurrent (details : String → Except PyExn EventData)
    (order : List Nat) (fixtures : List Fixture) : List Fixture :=
  if fixtures.isEmpty then []
  else order.filterMap (fun i => (fixtures[i]?).map (processFixtureConcurrent details))

/-- `run_scraper_and_get_data` (vrt.py lines 159-167). The `Except`
result type records that the function could in principle propagate a
Python exception to its caller; the claims examine whether it ever
does. -/
def runScraperAndGetData (now : Date) (listing : Except PyExn (List TableBlock))
    (details : String → Except PyExn EventData) (order : List Nat) :
    Except PyExn (List Fixture) :=
  let today := (vrtGetFixtures baseUrl now listing).2
  if today.isEmpty then Except.ok []
  else Except.ok (processAllFixturesConcurrent details order today)

/-- `main` of scraper.py (lines 17-53), reduced to its snapshot effect:
with a previously published snapshot `prev`, an empty scrape result exits
with code 0 **without writing**, a non-empty result writes it as the new
snapshot and exits 0. Returns (published snapshot, exit code). -/
def mainPublish (prev : Option (List Fixture)) (dataMap : List Fixture) :
    Option (List Fixture) × Nat :=
  if dataMap.isEmpty then (prev, 0)
  else (some dataMap, 0)

/-! ## api.py — the fuller variant of the same pipeline -/

/-- The date-string fallback of api.py lines 233-234:
`re.search(rf'^<day>\s+[A-Za-z]+', s) or re.search(rf'\b<day>\s+[A-Za-z]+', s)`
(the anchored form, then the word-boundary form). -/
def apiDayTextMatch (dayDigits : List Char) (s : List Char) : Bool :=
  dayTryAt dayDigits s || daySearch dayDigits s

/-- The "is this fixture for today" decision of api.py lines 222-235:
when a parsed datetime object exists its calendar date is compared with
today; otherwise the display text is searched for today's day number. -/
def apiIsToday (now : Date) (f : Fixture) : Bool :=
  match f.parsedDatetime with
  | some dt => dt.year = now.year && dt.month = now.month && dt.day = now.day
  | none =>
    match f.dateTime with
    | some s => if s = "" then false else apiDayTextMatch (natDigits now.day) s.data
    | none => false

/-- The duplicate test of api.py lines 240-244: some already-collected
fixture has the same `event_id` and that id is not `None`. -/
def apiIsDuplicate (acc : List Fixture) (f : Fixture) : Bool :=
  acc.any (fun g => g.eventId == f.eventId && g.eventId.isSome)

/-- The collection loop of api.py `get_fixtures_for_sport` (lines
218-247), taking the per-block parse results at the BeautifulSoup
boundary: a parsed fixture is appended when it is for today and no
earlier-collected fixture already carries its (non-None) id. -/
def apiCollectToday (now : Date) (parsed : List (Option Fixture)) : List Fixture :=
  parsed.foldl
    (fun acc of =>
      match of with
      | none => acc
      | some f =>
        if apiIsToday now f then
          if apiIsDuplicate acc f then acc else acc ++ [f]
        else acc)
    []

/-- `process_fixture_concurrent` of api.py (lines 386-419): logos and
streams are written only when the fetched lists are non-empty (truthiness
of the fetched values); the outer try/except returns the fixture on any
error. -/
def apiProcessFixture (details : String → Except PyExn EventData)
    (f : Fixture) : Fixture :=
  match f.eventUrl with
  | none => f
  | some u =>
    if u = "" then f
    else
      match (details u).toOption with
      | none => f
      | some d =>
        let f1 := if d.teamLogos.isEmpty then f else { f with teamLogos := some d.teamLogos }
        if d.streams.isEmpty then f1 else { f1 with streams := some d.streams }

/-- `process_all_fixtures_concurrent` of api.py (lines 434-472): each
index is submitted; as futures complete (in `order`) the result is stored
in a dictionary keyed by the submission index; finally the list is
reconstructed over the sorted keys. -/
def apiProcessAll (details : String → Except PyExn EventData)
    (order : List Nat) (fixtures : List Fixture) : List Fixture :=
  if fixtures.isEmpty then fixtures
  else
    let dict : Nat → Option Fixture :=
      order.foldl
        (fun m i => fun j =>
          if j = i then (fixtures[i]?).map (apiProcessFixture details) else m j)
        (fun _ => none)
    (List.range fixtures.length).filterMap dict

/-! ## Spec-side definitions (for comparison with the code) -/

/-- Gregorian leap-year rule. -/
def isLeapYear (y : Nat) : Bool :=
  (y % 4 = 0 && y % 100 ≠ 0) || y % 400 = 0

/-- Days in a month of the given year (spec-side calendar). -/
def specDaysInMonth (y m : Nat) : Nat :=
  if m = 2 then (if isLeapYear y then 29 else 28) else daysInMonth1900 m

/-- The spec's reading of the recognized pattern
`<day> <month-name> at <HH:MM>`: the display text contains a day number, a
full month name and a 24-hour time, the day existing in that month of the
current year; the result combines them with the current year. This
definition follows the spec's words and is compared against the code's
`parseFixtureDT`. -/
def specRecognizedTimestamp (year : Nat) (s : List Char) : Option DateTimeV :=
  match searchMonth s with
  | none => none
  | some (d, mon, hh, mm) =>
    match monthIndex mon with
    | none => none
    | some mo =>
      let dn := digitsVal d
      let hn := digitsVal hh
      let mn := digitsVal mm
      if 1 ≤ dn ∧ dn ≤ specDaysInMonth year mo ∧ hn ≤ 23 ∧ mn ≤ 59
      then some { year := year, month := mo, day := dn, hour := hn, minute := mn }
      else none

/-! ## Concrete sample values used as test vectors -/

/-- A bare fixture record (no optional field set). -/
def sampleFixtureA : Fixture :=
  { matchup := "Alpha - Beta", eventUrl := none, eventId := none, dateTime := none,
    competition := none, parsedDatetime := none, logoAlt := none, isLive := false,
    teamLogos := none, streams := none }

/-- A second bare fixture record, distinct from `sampleFixtureA`. -/
def sampleFixtureB : Fixture :=
  { matchup := "Gamma - Delta", eventUrl := none, eventId := none, dateTime := none,
    competition := none, parsedDatetime := none, logoAlt := none, isLive := false,
    teamLogos := none, streams := none }

/-- A listing block for event 55, dated 7 July. -/
def tbDup1 : TableBlock :=
  { linkTag := some { text := "Alpha - Beta", href := some ("/eventinfo/55") },
    evdesc := some ("7 July at 10:00"), imgAlt := none, hasLiveGif := false }

/-- A second listing block for the same event id 55 (duplicate by id). -/
def tbDup2 : TableBlock :=
  { linkTag := some { text := "Alpha G - Beta G", href := some ("/eventinfo/55") },
    evdesc := some ("7 July at 10:00"), imgAlt := none, hasLiveGif := false }

/-- A listing block whose display day carries a leading zero. -/
def tbZeroDay : TableBlock :=
  { linkTag := some { text := "Alpha - Beta", href := some ("/eventinfo/2") },
    evdesc := some ("07 July at 10:00"), imgAlt := none, hasLiveGif := false }

/-- A listing block for an event whose URL carries no event-reference id. -/
def tbNoId : TableBlock :=
  { linkTag := some { text := "Alpha - Beta", href := some ("/foo/123.html") },
    evdesc := some ("7 July at 10:00"), imgAlt := none, hasLiveGif := false }

/-- The fixture `_parse_broadcast_item` produces from `tbDup1` on 7 July
2025 (checked by `rfl` below). -/
def parsedDup1 : Fixture :=
  { matchup := "Alpha - Beta", eventUrl := some ("https://livetv.sx/eventinfo/55"),
    eventId := some ("55"), dateTime := some ("7 July at 10:00"), competition := none,
    parsedDatetime := some ⟨2025, 7, 7, 10, 0⟩, logoAlt := none, isLive := false,
    teamLogos := none, streams := none }

/-- The fixture `_parse_broadcast_item` produces from `tbDup2` against a
different base URL on 1 January 2026 (checked by `rfl` below). -/
def parsedDup2 : Fixture :=
  { matchup := "Alpha G - Beta G", eventUrl := some ("https://other.example/eventinfo/55"),
    eventId := some ("55"), dateTime := some ("7 July at 10:00"), competition := none,
    parsedDatetime := some ⟨2026, 7, 7, 10, 0⟩, logoAlt := none, isLive := false,
    teamLogos := none, streams := none }

/-! ## Helper lemmas -/

theorem parse_no_enrichment (base : String) (now : Date) (tb : TableBlock) (f : Fixture)
    (h : parseBroadcastItem base now tb = some f) :
    f.teamLogos = none ∧ f.streams = none := by
  cases htb : tb.linkTag with
  | none => simp [parseBroadcastItem, htb] at h
  | some lk =>
    simp [parseBroadcastItem, htb] at h
    subst h
    exact ⟨rfl, rfl⟩

theorem process_noop (details : String → Except PyExn EventData) (f : Fixture)
    (h : ∀ u, f.eventUrl = some u → (details u).toOption = none) :
    processFixtureConcurrent details f = f := by
  unfold processFixtureConcurrent
  cases hu : f.eventUrl with
  | none => rfl
  | some u => simp [getEventDetailsConcurrent, h u hu, ite_self]

theorem mem_processAll (details : String → Except PyExn EventData) (order : List Nat)
    (fixtures : List Fixture) (i : Nat) (f : Fixture)
    (hi : i ∈ order) (hf : fixtures[i]? = some f) :
    processFixtureConcurrent details f ∈ processAllFixturesConcurrent details order fixtures := by
  have hne : fixtures.isEmpty = false := by
    cases fixtures
    · simp at hf
    · rfl
  simp only [processAllFixturesConcurrent, hne, Bool.false_eq_true, if_false]
  exact List.mem_filterMap.mpr ⟨i, hi, by rw [hf]; rfl⟩

/-! ## Claims -/

/-- C9: `run_scraper_and_get_data` is total at its public interface: for
every outcome of the listing fetch, of every per-detail fetch and every
worker completion order, it returns a list and never propagates an
exception (exceptions are absorbed by the bare excepts of
`get_fixtures_for_sport`, `get_event_details_concurrent` and the
per-future try of `process_all_fixtures_concurrent`). -/
theorem C9_run_never_raises (now : Date) (listing : Except PyExn (List TableBlock))
    (details : String → Except PyExn EventData) (order : List Nat) :
    ∃ l, runScraperAndGetData now listing details order = Except.ok l := by
  by_cases hc : ((vrtGetFixtures baseUrl now listing).2).isEmpty
  · exact ⟨[], by simp [runScraperAndGetData, hc]⟩
  · exact ⟨processAllFixturesConcurrent details order ((vrtGetFixtures baseUrl now listing).2),
      by simp [runScraperAndGetData, hc]⟩

/-- C10: enrichment only adds data: `process_fixture_concurrent` leaves
every listing-parse field (matchup, event_url, event_id, date_time,
competition, parsed_datetime, is_live, logo_alt) unchanged; only
team_logos and streams may be written. -/
theorem C10_enrichment_frame (details : String → Except PyExn EventData) (f : Fixture) :
    (processFixtureConcurrent details f).matchup = f.matchup ∧
    (processFixtureConcurrent details f).eventUrl = f.eventUrl ∧
    (processFixtureConcurrent details f).eventId = f.eventId ∧
    (processFixtureConcurrent details f).dateTime = f.dateTime ∧
    (processFixtureConcurrent details f).competition = f.competition ∧
    (processFixtureConcurrent details f).parsedDatetime = f.parsedDatetime ∧
    (processFixtureConcurrent details f).isLive = f.isLive ∧
    (processFixtureConcurrent details f).logoAlt = f.logoAlt := by
  cases hu : f.eventUrl with
  | none => simp [processFixtureConcurrent, hu]
  | some u =>
    by_cases h0 : u = ""
    · simp [processFixtureConcurrent, hu, h0]
    · cases hd : getEventDetailsConcurrent details u with
      | none => simp [processFixtureConcurrent, hu, h0, hd]
      | some d => simp [processFixtureConcurrent, hu, h0, hd]

/-- C3 counterexample: a failing listing fetch does NOT surface a distinct
failure to the caller — the run's value is exactly the same `ok []` an
empty day produces, so the two outcomes are indistinguishable. -/
theorem C3_counterexample :
    runScraperAndGetData ⟨2025, 1, 1⟩ (Except.error ("server error"))
        (fun _ => Except.error ("")) [] =
      runScraperAndGetData ⟨2025, 1, 1⟩ (Except.ok []) (fun _ => Except.error ("")) [] ∧
    runScraperAndGetData ⟨2025, 1, 1⟩ (Except.error ("server error"))
        (fun _ => Except.error ("")) [] = Except.ok ([] : List Fixture) :=
  ⟨rfl, rfl⟩

/-- C3 amended: a listing-fetch failure makes the run return the empty
list — the same value as an empty day, with no distinct failure signal;
the caller exits on any empty result without writing, so the previously
published snapshot is indeed left unchanged. -/
theorem C3_amended (now : Date) (e : PyExn) (details : String → Except PyExn EventData)
    (order : List Nat) (prev : Option (List Fixture)) :
    runScraperAndGetData now (Except.error e) details order = Except.ok [] ∧
    (mainPublish prev []).1 = prev :=
  ⟨rfl, rfl⟩

/-- C5 counterexample: a run with a successful listing fetch and zero
candidates returns the empty list, and the caller then keeps the previous
snapshot instead of overwriting it with an empty one. -/
theorem C5_counterexample :
    runScraperAndGetData ⟨2025, 1, 1⟩ (Except.ok []) (fun _ => Except.error ("x")) [] =
      Except.ok [] ∧
    (mainPublish (some [sampleFixtureA]) []).1 = some [sampleFixtureA] ∧
    some [sampleFixtureA] ≠ some ([] : List Fixture) :=
  ⟨rfl, rfl, by simp⟩

/-- C5 amended: a run in which the listing fetch succeeds but zero
candidates pass the date filter returns the empty list, and the caller
exits with code 0 WITHOUT publishing — the previous snapshot remains in
place; there is no distinct Empty status and no empty overwrite. -/
theorem C5_amended (now : Date) (tables : List TableBlock)
    (details : String → Except PyExn EventData) (order : List Nat)
    (prev : Option (List Fixture))
    (h : (vrtGetFixtures baseUrl now (Except.ok tables)).2 = []) :
    runScraperAndGetData now (Except.ok tables) details order = Except.ok [] ∧
    mainPublish prev [] = (prev, 0) := by
  constructor
  · simp [runScraperAndGetData, h]
  · rfl

/-- C5 witness: the amended statement at a concrete empty listing. -/
theorem C5_witness :
    runScraperAndGetData ⟨2025, 1, 2⟩ (Except.ok []) (fun _ => Except.error ("y")) [] =
      Except.ok [] ∧
    mainPublish none [] = (none, 0) :=
  C5_amended ⟨2025, 1, 2⟩ [] (fun _ => Except.error ("y")) [] none (by rfl)

/-- C1 counterexample: the production listing collector
(`vrt.get_fixtures_for_sport`) retains BOTH of two candidates carrying the
same extracted id 55; no deduplication happens, so the published snapshot
can contain duplicate ids. -/
theorem C1_counterexample :
    ((vrtGetFixtures baseUrl ⟨2025, 7, 7⟩ (Except.ok [tbDup1, tbDup2])).2).length = 2 ∧
    ((vrtGetFixtures baseUrl ⟨2025, 7, 7⟩ (Except.ok [tbDup1, tbDup2])).2).map
        (fun f => f.eventId) = [some ("55"), some ("55")] :=
  ⟨rfl, rfl⟩

theorem apiCollect_pairwise_aux (now : Date) (parsed : List (Option Fixture)) :
    ∀ acc : List Fixture,
      acc.Pairwise (fun a b => a.eventId.isSome = true → a.eventId ≠ b.eventId) →
      (parsed.foldl
        (fun acc of =>
          match of with
          | none => acc
          | some f =>
            if apiIsToday now f then
              if apiIsDuplicate acc f then acc else acc ++ [f]
            else acc)
        acc).Pairwise (fun a b => a.eventId.isSome = true → a.eventId ≠ b.eventId) := by
  induction parsed with
  | nil => intro acc h; exact h
  | cons of rest ih =>
    intro acc hacc
    rw [List.foldl_cons]
    apply ih
    cases of with
    | none => exact hacc
    | some f =>
      cases ht : apiIsToday now f with
      | false => simpa [ht] using hacc
      | true =>
        cases hdup : apiIsDuplicate acc f with
        | true => simpa [ht, hdup] using hacc
        | false =>
          have hred : (match some f with
              | none => acc
              | some f =>
                if apiIsToday now f then
                  if apiIsDuplicate acc f then acc else acc ++ [f]
                else acc) = acc ++ [f] := by
            simp [ht, hdup]
          rw [hred, List.pairwise_append]
          refine ⟨hacc, List.pairwise_singleton _ _, ?_⟩
          intro a ha b hb
          have hb2 : b = f := by simpa using hb
          intro hsome heq
          rw [hb2] at heq
          have hdup2 : apiIsDuplicate acc f = true := by
            unfold apiIsDuplicate
            rw [List.any_eq_true]
            exact ⟨a, ha, by simp [heq, heq ▸ hsome]⟩
          rw [hdup] at hdup2
          exact Bool.false_ne_true hdup2

/-- C1 amended: the deduplication described by the claim lives in the
api.py variant of `get_fixtures_for_sport`, not in vrt.py's production
variant. In the api.py collector, any two collected fixtures with a
present id carry distinct ids (a later candidate duplicating an earlier
non-None id is dropped, keeping the first seen); the vrt.py pipeline that
publishes the snapshot performs no deduplication at all (see the
counterexample). -/
theorem C1_amended (now : Date) (parsed : List (Option Fixture)) :
    (apiCollectToday now parsed).Pairwise
      (fun a b => a.eventId.isSome = true → a.eventId ≠ b.eventId) :=
  apiCollect_pairwise_aux now parsed [] List.Pairwise.nil

/-- C4 counterexample: on 7 July 2025 a candidate whose display text is
"07 July at 10:00" parses to a normalized timestamp dated exactly today,
yet the production date filter excludes it (the filter only runs the
day-number regex over the display text, which fails on the leading zero,
and never consults the timestamp). -/
theorem C4_counterexample :
    ∃ f, parseBroadcastItem baseUrl ⟨2025, 7, 7⟩ tbZeroDay = some f ∧
      f.parsedDatetime = some ⟨2025, 7, 7, 10, 0⟩ ∧
      (vrtGetFixtures baseUrl ⟨2025, 7, 7⟩ (Except.ok [tbZeroDay])).2 = [] :=
  ⟨_, rfl, rfl, rfl⟩

/-- C4 amended: the production date filter decides membership from the
raw display text alone — a candidate is retained exactly when its
`date_time` text is present, non-empty and contains today's day number at
a word boundary followed by whitespace and a letter; the normalized
timestamp is never consulted (changing it never changes the decision). -/
theorem C4_amended (now : Date) (f : Fixture) (pd : Option DateTimeV) :
    vrtKeep now { f with parsedDatetime := pd } = vrtKeep now f ∧
    (∀ s, f.dateTime = some s → s ≠ "" →
      vrtKeep now f = daySearch (natDigits now.day) s.data) := by
  constructor
  · rfl
  · intro s hs h0
    simp [vrtKeep, hs, h0]

/-- C4 witness: the amended statement applied to the fixture parsed from
`tbDup1` on 7 July 2025. -/
theorem C4_witness :
    vrtKeep ⟨2025, 7, 7⟩ parsedDup1 = daySearch (natDigits 7) (String.data ("7 July at 10:00")) :=
  (C4_amended ⟨2025, 7, 7⟩ parsedDup1 none).2 ("7 July at 10:00") rfl (by decide)

/-- C6 counterexample: a candidate whose detail URL carries no
event-reference segment gets NO id at all — `event_id` is left absent
rather than set to a digest of the title (no digest fallback exists in the
code). -/
theorem C6_counterexample :
    ∃ f, parseBroadcastItem baseUrl ⟨2025, 7, 7⟩ tbNoId = some f ∧
      f.eventId = none ∧ f.matchup = "Alpha - Beta" :=
  ⟨_, rfl, rfl, rfl⟩

/-- C6 amended: identity resolution is a deterministic function of the
detail href alone — a URL matching `/eventinfo/<digits>` yields the digits
of the leftmost such segment as id, independently of the base URL, the
clock and every other field (so the same URL yields the same id across
runs); a candidate whose URL carries no such segment gets no id at all
(`event_id` absent) — there is no digest-of-title fallback. -/
theorem C6_amended (base1 base2 : String) (now1 now2 : Date) (tb1 tb2 : TableBlock)
    (lk1 lk2 : LinkTag) (f1 f2 : Fixture)
    (h1 : tb1.linkTag = some lk1) (hp1 : parseBroadcastItem base1 now1 tb1 = some f1)
    (h2 : tb2.linkTag = some lk2) (hp2 : parseBroadcastItem base2 now2 tb2 = some f2)
    (hhref : lk1.href = lk2.href) :
    f1.eventId = (match lk1.href with
                  | none => none
                  | some h => if h = "" then none else searchEventInfoS h) ∧
    f1.eventId = f2.eventId := by
  simp only [parseBroadcastItem, h1] at hp1
  simp only [parseBroadcastItem, h2] at hp2
  rw [Option.some.injEq] at hp1 hp2
  subst hp1
  subst hp2
  have hgen : ∀ (b : String) (nw : Date) (tb : TableBlock) (lk : LinkTag),
      (buildFixture b nw tb lk).eventId =
        (match lk.href with
         | none => none
         | some h => if h = "" then none else searchEventInfoS h) := by
    intro b nw tb lk
    show (eventUrlIdOf b lk).2 = _
    unfold eventUrlIdOf
    cases lk.href with
    | none => rfl
    | some h =>
      by_cases h0 : h = ""
      · simp [h0]
      · simp [h0]
  refine ⟨hgen base1 now1 tb1 lk1, ?_⟩
  rw [hgen base1 now1 tb1 lk1, hgen base2 now2 tb2 lk2, hhref]

/-- C6 witness: the amended statement at two listing blocks sharing the
href of event 55 but differing in title, base URL and clock. -/
theorem C6_witness :
    parseBroadcastItem baseUrl ⟨2025, 7, 7⟩ tbDup1 = some parsedDup1 ∧
    parseBroadcastItem ("https://other.example") ⟨2026, 1, 1⟩ tbDup2 = some parsedDup2 ∧
    parsedDup1.eventId = some ("55") ∧ parsedDup1.eventId = parsedDup2.eventId :=
  ⟨rfl, rfl, rfl,
    (C6_amended baseUrl ("https://other.example") ⟨2025, 7, 7⟩ ⟨2026, 1, 1⟩ tbDup1 tbDup2
      { text := "Alpha - Beta", href := some ("/eventinfo/55") }
      { text := "Alpha G - Beta G", href := some ("/eventinfo/55") }
      parsedDup1 parsedDup2 rfl rfl rfl rfl rfl).2⟩

/-- C8 counterexample: the display text "29 February at 10:00" matches
the pattern day, month-name, HH:MM — and in the (leap) current year 2024
names an existing date, as the spec-side reading recognizes — yet the
parser leaves the timestamp absent: strptime validates the day against
its default year 1900, which is not a leap year, and the resulting
exception is swallowed. -/
theorem C8_counterexample :
    searchMonth (String.data ("29 February at 10:00")) =
      some ((['2', '9']), (['F', 'e', 'b', 'r', 'u', 'a', 'r', 'y']), (['1', '0']), (['0', '0'])) ∧
    specRecognizedTimestamp 2024 (String.data ("29 February at 10:00")) =
      some ⟨2024, 2, 29, 10, 0⟩ ∧
    parseFixtureDT 2024 (String.data ("29 February at 10:00")) = none :=
  ⟨rfl, rfl, rfl⟩

/-- C8 amended: when the pattern does not match, the timestamp is left
absent; when it matches, the parser produces the timestamp combining the
captured day, month and time with the current year exactly when the
strptime validation passes: full month name, 1-2 digit day between 1 and
the month's length in the non-leap default year 1900 (so 29 February is
always rejected), 1-2 digit hour below 24 and 1-2 digit minute below 60;
otherwise the timestamp is absent. Date parsing never raises: it is a
total function into an optional timestamp. -/
theorem C8_amended (year : Nat) (s : List Char) :
    (searchMonth s = none → parseFixtureDT year s = none) ∧
    (∀ d mon hh mm, searchMonth s = some (d, mon, hh, mm) →
      parseFixtureDT year s = (pyStrptimeDBHM d mon hh mm).map
          (fun r => { year := year, month := r.1, day := r.2.1,
                      hour := r.2.2.1, minute := r.2.2.2 }) ∧
      ((pyStrptimeDBHM d mon hh mm).isSome = true ↔
        ∃ mo, monthIndex mon = some mo ∧ d.length ≤ 2 ∧ 1 ≤ digitsVal d ∧
          digitsVal d ≤ 31 ∧ hh.length ≤ 2 ∧ digitsVal hh ≤ 23 ∧
          mm.length ≤ 2 ∧ digitsVal mm ≤ 59 ∧ digitsVal d ≤ daysInMonth1900 mo)) := by
  constructor
  · intro h
    simp [parseFixtureDT, h]
  · intro d mon hh mm h
    constructor
    · simp [parseFixtureDT, h]
    · cases hm : monthIndex mon with
      | none => simp [pyStrptimeDBHM, hm]
      | some mo =>
        simp only [pyStrptimeDBHM, hm]
        by_cases hc : d.length ≤ 2 ∧ 1 ≤ digitsVal d ∧ digitsVal d ≤ 31 ∧
            hh.length ≤ 2 ∧ digitsVal hh ≤ 23 ∧ mm.length ≤ 2 ∧ digitsVal mm ≤ 59 ∧
            digitsVal d ≤ daysInMonth1900 mo
        · rw [if_pos hc]
          simp only [Option.isSome_some, true_iff]
          exact ⟨mo, rfl, hc.1, hc.2.1, hc.2.2.1, hc.2.2.2.1, hc.2.2.2.2.1,
            hc.2.2.2.2.2.1, hc.2.2.2.2.2.2.1, hc.2.2.2.2.2.2.2⟩
        · rw [if_neg hc]
          simp only [Option.isSome_none, Bool.false_eq_true, false_iff]
          intro hcon
          rcases hcon with ⟨mo2, hmo2, hrest⟩
          have h5 : mo = mo2 := Option.some.inj hmo2
          subst h5
          exact hc ⟨hrest.1, hrest.2.1, hrest.2.2.1, hrest.2.2.2.1, hrest.2.2.2.2.1,
            hrest.2.2.2.2.2.1, hrest.2.2.2.2.2.2.1, hrest.2.2.2.2.2.2.2⟩

/-- C8 witness: the amended statement at the text "7 June at 10:00". -/
theorem C8_witness :
    parseFixtureDT 2025 (String.data ("7 June at 10:00")) =
      (pyStrptimeDBHM (['7']) (['J', 'u', 'n', 'e']) (['1', '0']) (['0', '0'])).map
        (fun r => { year := 2025, month := r.1, day := r.2.1,
                    hour := r.2.2.1, minute := r.2.2.2 }) :=
  ((C8_amended 2025 (String.data ("7 June at 10:00"))).2
    (['7']) (['J', 'u', 'n', 'e']) (['1', '0']) (['0', '0']) rfl).1

theorem apiDict_eval (details : String → Except PyExn EventData)
    (fixtures : List Fixture) (order : List Nat) (m : Nat → Option Fixture) (j : Nat) :
    (order.foldl
      (fun m i => fun j2 =>
        if j2 = i then (fixtures[i]?).map (apiProcessFixture details) else m j2)
      m) j =
      if j ∈ order then (fixtures[j]?).map (apiProcessFixture details) else m j := by
  induction order generalizing m with
  | nil => simp
  | cons i rest ih =>
    rw [List.foldl_cons, ih]
    by_cases hj : j ∈ rest
    · simp [hj, List.mem_cons]
    · by_cases hji : j = i
      · subst hji
        simp [hj, List.mem_cons]
      · simp [hj, hji, List.mem_cons]

theorem range_filterMap_getElem {α β : Type} (g : α → β) (fs : List α) :
    (List.range fs.length).filterMap (fun j => (fs[j]?).map g) = fs.map g := by
  induction fs with
  | nil => simp
  | cons a t ih =>
    rw [List.length_cons, List.range_succ_eq_map]
    rw [List.filterMap_cons]
    simp only [List.getElem?_cons_zero, Option.map_some]
    rw [List.filterMap_map]
    have hcomp : ((fun j => ((a :: t)[j]?).map g) ∘ Nat.succ) = fun j => (t[j]?).map g := by
      funext j
      simp [Function.comp, List.getElem?_cons_succ]
    rw [hcomp, ih, List.map_cons]
    rfl

/-- C7 counterexample: in the production pipeline the snapshot order IS
the completion order of the concurrent detail fetches — two runs over the
same candidates whose workers complete in different orders produce
differently ordered snapshots, and no re-sort happens afterwards. -/
theorem C7_counterexample :
    processAllFixturesConcurrent (fun _ => Except.error ("e")) [0, 1]
        [sampleFixtureA, sampleFixtureB] ≠
      processAllFixturesConcurrent (fun _ => Except.error ("e")) [1, 0]
        [sampleFixtureA, sampleFixtureB] := by
  decide

/-- C7 amended: completion-order independence holds only in the api.py
variant: its `process_all_fixtures_concurrent` stores each result under
its submission index and rebuilds the list over the sorted indices, so for
every completion order (any permutation of the indices) the output is the
original listing order, each fixture processed — while vrt.py's production
variant appends in completion order (see the counterexample). -/
theorem C7_amended (details : String → Except PyExn EventData) (order : List Nat)
    (fixtures : List Fixture) (h : order.Perm (List.range fixtures.length)) :
    apiProcessAll details order fixtures = fixtures.map (apiProcessFixture details) := by
  cases fixtures with
  | nil => simp [apiProcessAll]
  | cons a t =>
    simp only [apiProcessAll, List.isEmpty_cons, Bool.false_eq_true, if_false]
    have hcong : ∀ j ∈ List.range (a :: t).length,
        (List.foldl
          (fun m i => fun j2 =>
            if j2 = i then ((a :: t)[i]?).map (apiProcessFixture details) else m j2)
          (fun _ => none) order) j =
          ((a :: t)[j]?).map (apiProcessFixture details) := by
      intro j hj
      rw [apiDict_eval]
      have hmem : j ∈ order := h.mem_iff.mpr hj
      rw [if_pos hmem]
    rw [List.filterMap_congr hcong]
    exact range_filterMap_getElem (apiProcessFixture details) (a :: t)

/-- C7 witness: the api.py aggregation at a reversed completion order. -/
theorem C7_witness :
    ([1, 0] : List Nat).Perm (List.range ([sampleFixtureA, sampleFixtureB].length)) ∧
    apiProcessAll (fun _ => Except.error ("e")) [1, 0] [sampleFixtureA, sampleFixtureB] =
      [sampleFixtureA, sampleFixtureB].map (apiProcessFixture (fun _ => Except.error ("e"))) :=
  ⟨by decide, C7_amended (fun _ => Except.error ("e")) [1, 0]
    [sampleFixtureA, sampleFixtureB] (by decide)⟩

/-- C2: an enrichment failure never removes a record: every fixture that
passed the date filter and whose detail fetch fails (timeout, non-2xx or
malformed markup — any absorbed exception) is still present, unchanged, in
the run's final snapshot, and its team-imagery and stream views are both
empty (its `team_logos`/`streams` keys were never written). -/
theorem C2_enrichment_failure_keeps_record (now : Date) (tables : List TableBlock)
    (details : String → Except PyExn EventData) (order : List Nat) (f : Fixture)
    (hf : f ∈ (vrtGetFixtures baseUrl now (Except.ok tables)).2)
    (hfail : ∀ u, f.eventUrl = some u → (details u).toOption = none)
    (horder : order.Perm (List.range ((vrtGetFixtures baseUrl now (Except.ok tables)).2).length)) :
    ∃ l, runScraperAndGetData now (Except.ok tables) details order = Except.ok l ∧
      f ∈ l ∧ teamImages f = [] ∧ streamsOf f = [] := by
  have hparse : ∃ tb, parseBroadcastItem baseUrl now tb = some f := by
    have hmem := List.mem_of_mem_filter hf
    rcases List.mem_filterMap.mp hmem with ⟨tb, _, htb⟩
    exact ⟨tb, htb⟩
  rcases hparse with ⟨tb, htb⟩
  rcases parse_no_enrichment _ _ _ _ htb with ⟨hTL, hST⟩
  have hnonempty : ((vrtGetFixtures baseUrl now (Except.ok tables)).2).isEmpty = false := by
    cases he : (vrtGetFixtures baseUrl now (Except.ok tables)).2 with
    | nil => rw [he] at hf; exact absurd hf (List.not_mem_nil f)
    | cons x xs => rfl
  have hrun : runScraperAndGetData now (Except.ok tables) details order =
      Except.ok (processAllFixturesConcurrent details order
        ((vrtGetFixtures baseUrl now (Except.ok tables)).2)) := by
    simp [runScraperAndGetData, hnonempty]
  refine ⟨_, hrun, ?_, by simp [teamImages, hTL], by simp [streamsOf, hST]⟩
  rcases List.get_of_mem hf with ⟨n, hn⟩
  have hget : ((vrtGetFixtures baseUrl now (Except.ok tables)).2)[n.1]? = some f := by
    rw [List.getElem?_eq_getElem n.2]
    simpa using hn
  have hio : n.1 ∈ order :=
    horder.mem_iff.mpr (List.mem_range.mpr n.2)
  have hmem2 := mem_processAll details order _ n.1 f hio hget
  rwa [process_noop details f hfail] at hmem2

/-- C2 witness: a concrete one-candidate run whose only detail fetch
fails; the candidate is still in the snapshot with empty views. -/
theorem C2_witness :
    ∃ l, runScraperAndGetData ⟨2025, 7, 7⟩ (Except.ok [tbDup1])
        (fun _ => Except.error ("down")) [0] = Except.ok l ∧
      parsedDup1 ∈ l ∧ teamImages parsedDup1 = [] ∧ streamsOf parsedDup1 = [] :=
  C2_enrichment_failure_keeps_record ⟨2025, 7, 7⟩ [tbDup1]
    (fun _ => Except.error ("down")) [0] parsedDup1
    (by decide) (fun u _ => rfl) (by decide)
